import Mathlib

/-!
Shallow embedding of the image preprocessing / postprocessing module
(`src/utils/imagePreprocessing.ts`) of the Web-Assembly style-transfer app.

Conventions of the embedding:
* JavaScript finite `number` values are modelled as `ℚ` (the module only
  performs field operations on finite inputs).
* Non-finite results (`NaN`, and reads of `undefined` out of a typed
  array's bounds) are modelled as `none : Option ℚ`; every arithmetic
  step propagates them, and a store into the output `Uint8ClampedArray`
  converts them to the byte `0`, exactly as the browser does with `NaN`.
  The only `NaN` source reachable in this module is the division
  `(v - min) / (max - min)` when `max == min` (then `v = min` for every
  value actually drawn from the buffer, so the division is `0/0`).
* `Math.round` on the clamped non-negative values produced here is
  `⌊x + 1/2⌋` (JavaScript rounds half toward +∞).
* `ImageData` is modelled as the flat RGBA byte list its constructor and
  the per-pixel loop produce; `new ImageData(w, h)` throws when a
  dimension is zero, modelled by `JSError.indexSizeError`.
* Thrown JavaScript errors are modelled with `Except JSError`.
-/

namespace ImagePreprocessing

/-- Failures thrown by the module (names follow the spec's taxonomy for the
corresponding `throw` sites / runtime exceptions in the code). -/
inductive JSError where
  /-- `throw new Error('Could not create canvas context')` -/
  | surfaceError
  /-- `new ImageData(w, h)` with a zero dimension -/
  | indexSizeError
  /-- ``throw new Error(`Unsupported tensor shape: ...`)`` -/
  | unsupportedRank
  /-- property access on `undefined` after an unknown profile-name lookup -/
  | configError
  deriving DecidableEq, Repr

/-- `ort.Tensor`: a shape descriptor plus a flat float buffer. -/
structure Tensor where
  dims : List ℕ
  data : List ℚ

/-- One entry of `PREPROCESSING_CONFIGS`. `mean` and `std` are the
three-element arrays of the source; channel `c` is read as `mean.getD c 0`. -/
structure Config where
  width : ℕ
  height : ℕ
  mean : List ℚ
  std : List ℚ
  channels : ℕ
  deriving DecidableEq, Repr

/-- The TypeScript union type of profile names. -/
inductive ConfigType where
  | default
  | styleTransfer
  | styleTransferSimple
  | styleTransferNoNorm
  deriving DecidableEq, Repr

/-- The object literal `PREPROCESSING_CONFIGS` of `imagePreprocessing.ts`. -/
def PREPROCESSING_CONFIGS : ConfigType → Config
  | ConfigType.default =>
      { width := 224, height := 224,
        mean := [485/1000, 456/1000, 406/1000],
        std := [229/1000, 224/1000, 225/1000],
        channels := 3 }
  | ConfigType.styleTransfer =>
      { width := 224, height := 224,
        mean := [485/1000, 456/1000, 406/1000],
        std := [229/1000, 224/1000, 225/1000],
        channels := 3 }
  | ConfigType.styleTransferSimple =>
      { width := 224, height := 224,
        mean := [5/10, 5/10, 5/10],
        std := [5/10, 5/10, 5/10],
        channels := 3 }
  | ConfigType.styleTransferNoNorm =>
      { width := 224, height := 224,
        mean := [0, 0, 0],
        std := [1, 1, 1],
        channels := 3 }

/-- The property keys a bracket lookup on the config object literal finds
through the prototype chain: the members of `Object.prototype`. -/
def objectPrototypeKeys : List String :=
  ["constructor", "hasOwnProperty", "isPrototypeOf", "propertyIsEnumerable",
   "toLocaleString", "toString", "valueOf", "__defineGetter__",
   "__defineSetter__", "__lookupGetter__", "__lookupSetter__", "__proto__"]

/-- Result of the bracket lookup `PREPROCESSING_CONFIGS[name]`: an own
entry of the object literal, a member inherited from `Object.prototype`
(a function or accessor — not a profile, but also not `undefined`), or
`undefined`. -/
inductive JSProp where
  | config (c : Config)
  | inherited
  | undef
  deriving DecidableEq, Repr

/-- Runtime string-keyed lookup into the `PREPROCESSING_CONFIGS` object.
An own key of the literal wins; otherwise JavaScript consults the
prototype chain, so the keys of `Object.prototype` yield the inherited
member; only the remaining names yield `undefined`. No name ever yields a
default profile. -/
def lookupConfig (name : String) : JSProp :=
  if name = "default" then JSProp.config (PREPROCESSING_CONFIGS ConfigType.default)
  else if name = "styleTransfer" then JSProp.config (PREPROCESSING_CONFIGS ConfigType.styleTransfer)
  else if name = "styleTransferSimple" then JSProp.config (PREPROCESSING_CONFIGS ConfigType.styleTransferSimple)
  else if name = "styleTransferNoNorm" then JSProp.config (PREPROCESSING_CONFIGS ConfigType.styleTransferNoNorm)
  else if name ∈ objectPrototypeKeys then JSProp.inherited
  else JSProp.undef

/-- The config-selection step of `preprocessImageForONNX`:
`const config = PREPROCESSING_CONFIGS[modelType]` followed by property
accesses on `config`. When the lookup is `undefined` the first property
access throws a TypeError (the spec's `ConfigError`). When it finds an own
entry the step proceeds with that profile's fixed fields. When it finds a
member inherited from `Object.prototype` the step does NOT throw —
property access on a function object merely yields `undefined` — and no
profile is selected (`Except.ok none`); any failure surfaces only later in
the pipeline, not as the config error. -/
def selectConfig (name : String) : Except JSError (Option Config) :=
  match lookupConfig name with
  | JSProp.config c => Except.ok (some c)
  | JSProp.inherited => Except.ok none
  | JSProp.undef => Except.error JSError.configError

/-- JavaScript `Math.round` on the finite values produced here
(all are ≥ 0 after clamping): round half toward +∞. -/
def jsRound (q : ℚ) : ℤ := ⌊q + 1/2⌋

/-- `Math.max(0, Math.min(1, v))`. -/
def clamp01 (q : ℚ) : ℚ := max 0 (min 1 q)

/-- `Math.round(Math.max(0, Math.min(1, v)) * 255)` as a byte. -/
def toByte (q : ℚ) : ℕ := (jsRound (clamp01 q * 255)).toNat

/-- Store `Math.round(v * 255)` into a `Uint8ClampedArray` slot, where `v`
was already clamped by the caller; `NaN` (`none`) stores as `0`. -/
def storeRounded : Option ℚ → ℕ
  | none => 0
  | some q => (jsRound (q * 255)).toNat

/-- Store `Math.round(Math.max(0, Math.min(1, v)) * 255)` into a
`Uint8ClampedArray` slot; `NaN` (`none`) stores as `0`. -/
def storeClamped : Option ℚ → ℕ
  | none => 0
  | some q => toByte q

/-- One step of the minimum scan: `if (data[i] < min) min = data[i]`. -/
def scanMinStep (m v : ℚ) : ℚ := if v < m then v else m

/-- One step of the maximum scan: `if (data[i] > max) max = data[i]`. -/
def scanMaxStep (m v : ℚ) : ℚ := if m < v then v else m

/-- The iterative minimum scan
`let min = data[0]; for (...) if (data[i] < min) min = data[i]`;
`none` is the empty buffer, where `data[0]` is `undefined`. -/
def scanMin : List ℚ → Option ℚ
  | [] => none
  | x :: xs => some (xs.foldl scanMinStep x)

/-- The iterative maximum scan, like `scanMin`. -/
def scanMax : List ℚ → Option ℚ
  | [] => none
  | x :: xs => some (xs.foldl scanMaxStep x)

/-- The `denormalizeFunc` selected by `tensorToImageDataAuto` from the
scanned range. The bands are tested in source order, first match wins.
With an empty buffer (`none` bounds) both comparisons are false and the
fallback division produces `NaN`. In the fallback with `max - min = 0`
the division is `0/0 = NaN` (every buffer value equals `min`). -/
def autoDenormFunc (mn mx : Option ℚ) (v : ℚ) : Option ℚ :=
  match mn, mx with
  | some a, some b =>
    if -11/10 ≤ a ∧ b ≤ 11/10 then some ((v + 1) / 2)
    else if -1/10 ≤ a ∧ b ≤ 11/10 then some v
    else if b - a = 0 then none
    else some ((v - a) / (b - a))
  | _, _ => none

/-- One iteration of the output loop of `tensorToImageDataAuto`: read the
three planar channel values of pixel `i` (an out-of-range read is
`undefined`, poisoning the arithmetic to `NaN`), apply `denormalizeFunc`,
clamp, scale, round, and emit the RGBA bytes with alpha 255. -/
def autoPixel (mn mx : Option ℚ) (data : List ℚ) (w h i : ℕ) : List ℕ :=
  [ storeClamped ((data.get? i).bind (autoDenormFunc mn mx)),
    storeClamped ((data.get? (w * h + i)).bind (autoDenormFunc mn mx)),
    storeClamped ((data.get? (2 * (w * h) + i)).bind (autoDenormFunc mn mx)),
    255 ]

/-- `tensorToImageDataAuto`. The rank test sits inside the per-pixel loop
in the source; since `new ImageData(w, h)` already rejects zero dimensions
the loop body runs at least once, so hoisting the (loop-invariant) test
out of the loop is observationally identical. The rank-4 and rank-3 arms
have the same body; the leading dimension of a rank-4 shape is never read. -/
def tensorToImageDataAuto (t : Tensor) (w h : ℕ) : Except JSError (List ℕ) :=
  if w = 0 ∨ h = 0 then Except.error JSError.indexSizeError
  else
    let mn := scanMin t.data
    let mx := scanMax t.data
    if t.dims.length = 4 then
      Except.ok ((List.range (w * h)).flatMap (autoPixel mn mx t.data w h))
    else if t.dims.length = 3 then
      Except.ok ((List.range (w * h)).flatMap (autoPixel mn mx t.data w h))
    else Except.error JSError.unsupportedRank

/-- The per-channel denormalization branch of `tensorToImageData`:
`styleTransferNoNorm` only clamps; `styleTransferSimple` and the final
`else` (ImageNet) branch both compute `v*std[c] + mean[c]` and clamp. -/
def explicitDenorm (cfg : ConfigType) (c : ℕ) (v : ℚ) : ℚ :=
  let config := PREPROCESSING_CONFIGS cfg
  if cfg = ConfigType.styleTransferNoNorm then
    clamp01 v
  else if cfg = ConfigType.styleTransferSimple then
    clamp01 (v * config.std.getD c 0 + config.mean.getD c 0)
  else
    clamp01 (v * config.std.getD c 0 + config.mean.getD c 0)

/-- One iteration of the output loop of `tensorToImageData`: planar reads,
per-config denormalization (which clamps), then `Math.round(v * 255)`. -/
def explicitPixel (cfg : ConfigType) (data : List ℚ) (w h i : ℕ) : List ℕ :=
  [ storeRounded ((data.get? i).map (explicitDenorm cfg 0)),
    storeRounded ((data.get? (w * h + i)).map (explicitDenorm cfg 1)),
    storeRounded ((data.get? (2 * (w * h) + i)).map (explicitDenorm cfg 2)),
    255 ]

/-- `tensorToImageData` (explicit mode). Rank handling is identical to
`tensorToImageDataAuto`: the test is loop-invariant and the two accepted
arms share one body that never reads a rank-4 batch dimension. -/
def tensorToImageData (t : Tensor) (w h : ℕ) (cfg : ConfigType) :
    Except JSError (List ℕ) :=
  if w = 0 ∨ h = 0 then Except.error JSError.indexSizeError
  else if t.dims.length = 4 then
    Except.ok ((List.range (w * h)).flatMap (explicitPixel cfg t.data w h))
  else if t.dims.length = 3 then
    Except.ok ((List.range (w * h)).flatMap (explicitPixel cfg t.data w h))
  else Except.error JSError.unsupportedRank

/-- The value the normalization loop writes at planar slot `c*w*h + i`:
`(pixels[4i+c]/255 - mean[c]) / std[c]`. Canvas `getImageData` always
returns `4*w*h` bytes, so the reads are in bounds. -/
def normAt (pixels : List ℕ) (config : Config) (c i : ℕ) : ℚ :=
  ((pixels.getD (4 * i + c) 0 : ℚ) / 255 - config.mean.getD c 0) / config.std.getD c 0

/-- `extractAndNormalizePixels`: the loop fills the three disjoint planar
channel blocks `[0, w*h)`, `[w*h, 2*w*h)`, `[2*w*h, 3*w*h)` of a fresh
`Float32Array(3*w*h)`; this is that buffer, block by block. The alpha byte
`pixels[4i+3]` is never read. -/
def extractAndNormalizePixels (w h : ℕ) (pixels : List ℕ) (config : Config) :
    List ℚ :=
  (List.range (w * h)).map (normAt pixels config 0) ++
  (List.range (w * h)).map (normAt pixels config 1) ++
  (List.range (w * h)).map (normAt pixels config 2)

/-- `createONNXTensor`: wrap the buffer with shape `[1, 3, height, width]`. -/
def createONNXTensor (normalizedData : List ℚ) (width height : ℕ) : Tensor :=
  { dims := [1, 3, height, width], data := normalizedData }

/-- An RGBA pixel of a canvas. -/
structure Pix where
  r : ℕ
  g : ℕ
  b : ℕ
  a : ℕ
  deriving DecidableEq, Repr

/-- The opaque white of `ctx.fillStyle = 'white'`. -/
def whitePix : Pix := { r := 255, g := 255, b := 255, a := 255 }

/-- The canvas returned by `resizeAndCropImage`, carrying the geometry it
computed and the composited pixel grid (defined on `[0,width)×[0,height)`;
anything the draw placed outside that domain is discarded). -/
structure DrawnCanvas where
  width : ℕ
  height : ℕ
  scale : ℚ
  scaledWidth : ℚ
  scaledHeight : ℚ
  offsetX : ℚ
  offsetY : ℚ
  px : ℕ → ℕ → Pix

/-- `resizeAndCropImage`. `ctxOk` models `canvas.getContext('2d')`
availability (its absence is the only throw in the function — there is no
dimension validation). `sample` abstracts the browser's resampling of the
source image inside `drawImage`'s destination rectangle; outside that
rectangle the white background fill shows through. -/
def resizeAndCropImage (ctxOk : Bool) (sample : ℕ → ℕ → Pix)
    (srcW srcH : ℕ) (targetWidth targetHeight : ℕ) :
    Except JSError DrawnCanvas :=
  if ctxOk = false then Except.error JSError.surfaceError
  else
    let scale : ℚ := max ((targetWidth : ℚ) / (srcW : ℚ)) ((targetHeight : ℚ) / (srcH : ℚ))
    let scaledWidth : ℚ := (srcW : ℚ) * scale
    let scaledHeight : ℚ := (srcH : ℚ) * scale
    let offsetX : ℚ := ((targetWidth : ℚ) - scaledWidth) / 2
    let offsetY : ℚ := ((targetHeight : ℚ) - scaledHeight) / 2
    Except.ok
      { width := targetWidth
        height := targetHeight
        scale := scale
        scaledWidth := scaledWidth
        scaledHeight := scaledHeight
        offsetX := offsetX
        offsetY := offsetY
        px := fun x y =>
          if offsetX ≤ (x : ℚ) ∧ (x : ℚ) < offsetX + scaledWidth ∧
             offsetY ≤ (y : ℚ) ∧ (y : ℚ) < offsetY + scaledHeight
          then sample x y
          else whitePix }

/-- A constant sampler used to instantiate `resizeAndCropImage` on
concrete inputs. -/
def graySample : ℕ → ℕ → Pix := fun _ _ => { r := 128, g := 128, b := 128, a := 255 }

/-! ### Helper lemmas -/

/-- Indexing into a concatenation of constant-length blocks:
byte `k*i + c` of `l.flatMap f` is byte `c` of block `i`. -/
lemma flatMap_get?_const {α β : Type} (f : α → List β) (k : ℕ)
    (hf : ∀ a, (f a).length = k) :
    ∀ (l : List α) (i c : ℕ), c < k →
      (l.flatMap f).get? (k * i + c) = (l.get? i).bind (fun a => (f a).get? c) := by
  intro l
  induction l with
  | nil => intro i c _; simp
  | cons a t ih =>
    intro i c hc
    cases i with
    | zero =>
      simp only [List.flatMap_cons, Nat.mul_zero, Nat.zero_add, List.get?_cons_zero,
        Option.bind_some, Option.some_bind]
      exact List.get?_append (by rw [hf a]; exact hc)
    | succ i =>
      have hidx : k * (i + 1) + c = (f a).length + (k * i + c) := by
        rw [hf a]; ring
      simp only [List.flatMap_cons, List.get?_cons_succ, hidx]
      rw [List.get?_append_right (Nat.le_add_right _ _), Nat.add_sub_cancel_left]
      exact ih i c hc

lemma flatMap_length_const {α β : Type} (f : α → List β) (k : ℕ)
    (hf : ∀ a, (f a).length = k) :
    ∀ l : List α, (l.flatMap f).length = l.length * k := by
  intro l
  induction l with
  | nil => simp
  | cons a t ih => simp [List.flatMap_cons, hf, ih, Nat.succ_mul, Nat.add_comm]

/-- `scanMinStep m v` is a lower bound of both arguments... in fact equals
one of them and is below both. -/
lemma scanMinStep_le_left (m v : ℚ) : scanMinStep m v ≤ m := by
  unfold scanMinStep; split
  · exact le_of_lt (by assumption)
  · exact le_refl m

lemma scanMinStep_le_right (m v : ℚ) : scanMinStep m v ≤ v := by
  unfold scanMinStep; split
  · exact le_refl v
  · exact le_of_not_lt (by assumption)

lemma scanMinStep_eq_or (m v : ℚ) : scanMinStep m v = m ∨ scanMinStep m v = v := by
  unfold scanMinStep; split
  · exact Or.inr rfl
  · exact Or.inl rfl

lemma scanMaxStep_le_left (m v : ℚ) : m ≤ scanMaxStep m v := by
  unfold scanMaxStep; split
  · exact le_of_lt (by assumption)
  · exact le_refl m

lemma scanMaxStep_le_right (m v : ℚ) : v ≤ scanMaxStep m v := by
  unfold scanMaxStep; split
  · exact le_refl v
  · exact le_of_not_lt (by assumption)

lemma scanMaxStep_eq_or (m v : ℚ) : scanMaxStep m v = m ∨ scanMaxStep m v = v := by
  unfold scanMaxStep; split
  · exact Or.inr rfl
  · exact Or.inl rfl

lemma foldl_scanMinStep_le_init : ∀ (xs : List ℚ) (x : ℚ), xs.foldl scanMinStep x ≤ x := by
  intro xs
  induction xs with
  | nil => intro x; exact le_refl x
  | cons a t ih =>
    intro x
    exact le_trans (ih (scanMinStep x a)) (scanMinStep_le_left x a)

lemma foldl_scanMinStep_le_mem :
    ∀ (xs : List ℚ) (x y : ℚ), y ∈ xs → xs.foldl scanMinStep x ≤ y := by
  intro xs
  induction xs with
  | nil => intro x y hy; simp at hy
  | cons a t ih =>
    intro x y hy
    rcases List.mem_cons.mp hy with h | h
    · subst h
      exact le_trans (foldl_scanMinStep_le_init t (scanMinStep x y)) (scanMinStep_le_right x y)
    · exact ih (scanMinStep x a) y h

lemma foldl_scanMinStep_mem :
    ∀ (xs : List ℚ) (x : ℚ), xs.foldl scanMinStep x ∈ x :: xs := by
  intro xs
  induction xs with
  | nil => intro x; simp
  | cons a t ih =>
    intro x
    have h := ih (scanMinStep x a)
    rcases List.mem_cons.mp h with h' | h'
    · rcases scanMinStep_eq_or x a with he | he
      · exact List.mem_cons.mpr (Or.inl (h'.trans he))
      · exact List.mem_cons.mpr (Or.inr (List.mem_cons.mpr (Or.inl (h'.trans he))))
    · exact List.mem_cons.mpr (Or.inr (List.mem_cons.mpr (Or.inr h')))

lemma foldl_scanMaxStep_init_le : ∀ (xs : List ℚ) (x : ℚ), x ≤ xs.foldl scanMaxStep x := by
  intro xs
  induction xs with
  | nil => intro x; exact le_refl x
  | cons a t ih =>
    intro x
    exact le_trans (scanMaxStep_le_left x a) (ih (scanMaxStep x a))

lemma foldl_scanMaxStep_mem_le :
    ∀ (xs : List ℚ) (x y : ℚ), y ∈ xs → y ≤ xs.foldl scanMaxStep x := by
  intro xs
  induction xs with
  | nil => intro x y hy; simp at hy
  | cons a t ih =>
    intro x y hy
    rcases List.mem_cons.mp hy with h | h
    · subst h
      exact le_trans (scanMaxStep_le_right x y) (foldl_scanMaxStep_init_le t (scanMaxStep x y))
    · exact ih (scanMaxStep x a) y h

lemma foldl_scanMaxStep_mem :
    ∀ (xs : List ℚ) (x : ℚ), xs.foldl scanMaxStep x ∈ x :: xs := by
  intro xs
  induction xs with
  | nil => intro x; simp
  | cons a t ih =>
    intro x
    have h := ih (scanMaxStep x a)
    rcases List.mem_cons.mp h with h' | h'
    · rcases scanMaxStep_eq_or x a with he | he
      · exact List.mem_cons.mpr (Or.inl (h'.trans he))
      · exact List.mem_cons.mpr (Or.inr (List.mem_cons.mpr (Or.inl (h'.trans he))))
    · exact List.mem_cons.mpr (Or.inr (List.mem_cons.mpr (Or.inr h')))

/-- The minimum scan of a nonempty buffer returns a member that bounds
every element from below. -/
lemma scanMin_spec (x : ℚ) (xs : List ℚ) :
    ∃ a, scanMin (x :: xs) = some a ∧ a ∈ x :: xs ∧ ∀ y ∈ x :: xs, a ≤ y := by
  refine ⟨xs.foldl scanMinStep x, rfl, foldl_scanMinStep_mem xs x, ?_⟩
  intro y hy
  rcases List.mem_cons.mp hy with h | h
  · subst h; exact foldl_scanMinStep_le_init xs y
  · exact foldl_scanMinStep_le_mem xs x y h

/-- The maximum scan of a nonempty buffer returns a member that bounds
every element from above. -/
lemma scanMax_spec (x : ℚ) (xs : List ℚ) :
    ∃ b, scanMax (x :: xs) = some b ∧ b ∈ x :: xs ∧ ∀ y ∈ x :: xs, y ≤ b := by
  refine ⟨xs.foldl scanMaxStep x, rfl, foldl_scanMaxStep_mem xs x, ?_⟩
  intro y hy
  rcases List.mem_cons.mp hy with h | h
  · subst h; exact foldl_scanMaxStep_init_le xs y
  · exact foldl_scanMaxStep_mem_le xs x y h

/-- Combined form of the two scan specifications for a nonempty buffer. -/
lemma scanMinMax_spec (l : List ℚ) (hne : l ≠ []) :
    ∃ mn mx, scanMin l = some mn ∧ scanMax l = some mx ∧
      mn ∈ l ∧ mx ∈ l ∧ ∀ y ∈ l, mn ≤ y ∧ y ≤ mx := by
  cases l with
  | nil => exact absurd rfl hne
  | cons x xs =>
    obtain ⟨mn, h1, h2, h3⟩ := scanMin_spec x xs
    obtain ⟨mx, h4, h5, h6⟩ := scanMax_spec x xs
    exact ⟨mn, mx, h1, h4, h2, h5, fun y hy => ⟨h3 y hy, h6 y hy⟩⟩

/-- With accepted dimensions and rank, `tensorToImageDataAuto` renders the
per-pixel RGBA blocks. -/
lemma tensorToImageDataAuto_ok (t : Tensor) (w h : ℕ)
    (hw : w ≠ 0) (hh : h ≠ 0) (hrank : t.dims.length = 3 ∨ t.dims.length = 4) :
    tensorToImageDataAuto t w h =
      Except.ok ((List.range (w * h)).flatMap
        (autoPixel (scanMin t.data) (scanMax t.data) t.data w h)) := by
  unfold tensorToImageDataAuto
  rcases hrank with h3 | h4
  · simp [hw, hh, h3]
  · simp [hw, hh, h4]

/-- With accepted dimensions and rank, `tensorToImageData` renders the
per-pixel RGBA blocks. -/
lemma tensorToImageData_ok (t : Tensor) (w h : ℕ) (cfg : ConfigType)
    (hw : w ≠ 0) (hh : h ≠ 0) (hrank : t.dims.length = 3 ∨ t.dims.length = 4) :
    tensorToImageData t w h cfg =
      Except.ok ((List.range (w * h)).flatMap (explicitPixel cfg t.data w h)) := by
  unfold tensorToImageData
  rcases hrank with h3 | h4
  · simp [hw, hh, h3]
  · simp [hw, hh, h4]

lemma autoRender_length (mn mx : Option ℚ) (data : List ℚ) (w h : ℕ) :
    ((List.range (w * h)).flatMap (autoPixel mn mx data w h)).length = (w * h) * 4 := by
  rw [flatMap_length_const (autoPixel mn mx data w h) 4 (fun a => rfl)]
  simp

lemma explicitRender_length (cfg : ConfigType) (data : List ℚ) (w h : ℕ) :
    ((List.range (w * h)).flatMap (explicitPixel cfg data w h)).length = (w * h) * 4 := by
  rw [flatMap_length_const (explicitPixel cfg data w h) 4 (fun a => rfl)]
  simp

lemma autoRender_get (mn mx : Option ℚ) (data : List ℚ) (w h i c : ℕ)
    (hi : i < w * h) (hc : c < 4) :
    ((List.range (w * h)).flatMap (autoPixel mn mx data w h)).get? (4 * i + c) =
      (autoPixel mn mx data w h i).get? c := by
  rw [flatMap_get?_const (autoPixel mn mx data w h) 4 (fun a => rfl) _ i c hc, List.get?_range hi]
  rfl

lemma explicitRender_get (cfg : ConfigType) (data : List ℚ) (w h i c : ℕ)
    (hi : i < w * h) (hc : c < 4) :
    ((List.range (w * h)).flatMap (explicitPixel cfg data w h)).get? (4 * i + c) =
      (explicitPixel cfg data w h i).get? c := by
  rw [flatMap_get?_const (explicitPixel cfg data w h) 4 (fun a => rfl) _ i c hc, List.get?_range hi]
  rfl

lemma toByte_zero : toByte 0 = 0 := by
  unfold toByte clamp01 jsRound
  norm_num

/-- The byte a buffer value `v` (with `min ≤ v ≤ max`) produces under the
selected `denormalizeFunc`, phrased as the first-match band cascade over
total rational division (in the degenerate band `max = min` both sides
are the byte `0`: the code's `0/0` is `NaN`, stored as `0`, and the total
division `0/0 = 0` also rounds to `0`). -/
lemma storeClamped_autoDenormFunc (a b v : ℚ) (hva : a ≤ v) (hvb : v ≤ b) :
    storeClamped (autoDenormFunc (some a) (some b) v) =
      (if -11/10 ≤ a ∧ b ≤ 11/10 then toByte ((v + 1) / 2)
       else if -1/10 ≤ a ∧ b ≤ 11/10 then toByte v
       else toByte ((v - a) / (b - a))) := by
  unfold autoDenormFunc
  by_cases h1 : -11/10 ≤ a ∧ b ≤ 11/10
  · simp [h1, storeClamped]
  · have h2 : ¬(-1/10 ≤ a ∧ b ≤ 11/10) := by
      intro hx
      exact h1 ⟨by linarith [hx.1], hx.2⟩
    by_cases h0 : b - a = 0
    · have hba : b = a := sub_eq_zero.mp h0
      subst hba
      have hv : v = b := le_antisymm hvb hva
      subst hv
      simp [h1, h2, storeClamped, sub_self, div_zero, toByte_zero]
    · simp [h1, h2, h0, storeClamped]

lemma get?_eq_getD {α : Type} {l : List α} {n : ℕ} (d : α) (h : n < l.length) :
    l.get? n = some (l.getD n d) := by
  rw [List.getD_eq_get _ _ h, List.get?_eq_get h]

lemma getD_mem {α : Type} {l : List α} {n : ℕ} (d : α) (h : n < l.length) :
    l.getD n d ∈ l := by
  rw [List.getD_eq_get _ _ h]
  exact List.get_mem _ _ _

/-- C1: auto-mode denormalization computes `min` and `max` over the whole
data buffer and picks the mapping by testing the inclusive bands in source
order with first match winning — `min ≥ -1.1 ∧ max ≤ 1.1 ↦ (v+1)/2`, then
`min ≥ -0.1 ∧ max ≤ 1.1 ↦ v`, otherwise `(v - min)/(max - min)` — and each
channel value is then clamped to `[0,1]`, scaled by 255 and rounded to
produce the output byte. -/
theorem auto_mode_band_selection (t : Tensor) (w h : ℕ)
    (hw : 1 ≤ w) (hh : 1 ≤ h)
    (hrank : t.dims.length = 3 ∨ t.dims.length = 4)
    (hlen : 3 * (w * h) ≤ t.data.length) :
    ∃ mn mx out,
      mn ∈ t.data ∧ mx ∈ t.data ∧
      (∀ v ∈ t.data, mn ≤ v ∧ v ≤ mx) ∧
      tensorToImageDataAuto t w h = Except.ok out ∧
      out.length = (w * h) * 4 ∧
      (∀ i, i < w * h → ∀ c, c < 3 →
        out.get? (4 * i + c) = some
          (if -11/10 ≤ mn ∧ mx ≤ 11/10 then
             toByte ((t.data.getD (c * (w * h) + i) 0 + 1) / 2)
           else if -1/10 ≤ mn ∧ mx ≤ 11/10 then
             toByte (t.data.getD (c * (w * h) + i) 0)
           else
             toByte ((t.data.getD (c * (w * h) + i) 0 - mn) / (mx - mn)))) := by
  have hW : 1 ≤ w * h := Nat.one_le_iff_ne_zero.mpr
    (Nat.mul_ne_zero (Nat.one_le_iff_ne_zero.mp hw) (Nat.one_le_iff_ne_zero.mp hh))
  have hne : t.data ≠ [] := by
    intro hnil
    rw [hnil] at hlen
    simp at hlen
    omega
  obtain ⟨mn, mx, hmn, hmx, hmnMem, hmxMem, hbound⟩ := scanMinMax_spec t.data hne
  refine ⟨mn, mx,
    (List.range (w * h)).flatMap (autoPixel (scanMin t.data) (scanMax t.data) t.data w h),
    hmnMem, hmxMem, hbound,
    tensorToImageDataAuto_ok t w h (by omega) (by omega) hrank,
    autoRender_length _ _ _ _ _, ?_⟩
  intro i hi c hc
  rw [autoRender_get _ _ _ _ _ i c hi (by omega)]
  have hidx : c * (w * h) + i < t.data.length := by
    have h1 : c * (w * h) ≤ 2 * (w * h) := Nat.mul_le_mul_right _ (by omega)
    omega
  have hvmem : t.data.getD (c * (w * h) + i) 0 ∈ t.data := getD_mem 0 hidx
  have hvle := (hbound _ hvmem).1
  have hvge := (hbound _ hvmem).2
  have hread : t.data.get? (c * (w * h) + i) = some (t.data.getD (c * (w * h) + i) 0) :=
    get?_eq_getD 0 hidx
  interval_cases c
  · have h0 : (0 : ℕ) * (w * h) + i = i := by ring
    rw [h0] at hread hvle hvge ⊢
    show some (storeClamped ((t.data.get? i).bind
      (autoDenormFunc (scanMin t.data) (scanMax t.data)))) = _
    rw [hread, hmn, hmx, Option.some_bind,
      storeClamped_autoDenormFunc mn mx _ hvle hvge]
  · have h0 : (1 : ℕ) * (w * h) + i = w * h + i := by ring
    rw [h0] at hread hvle hvge ⊢
    show some (storeClamped ((t.data.get? (w * h + i)).bind
      (autoDenormFunc (scanMin t.data) (scanMax t.data)))) = _
    rw [hread, hmn, hmx, Option.some_bind,
      storeClamped_autoDenormFunc mn mx _ hvle hvge]
  · show some (storeClamped ((t.data.get? (2 * (w * h) + i)).bind
      (autoDenormFunc (scanMin t.data) (scanMax t.data)))) = _
    rw [hread, hmn, hmx, Option.some_bind,
      storeClamped_autoDenormFunc mn mx _ hvle hvge]

/-- Witness for C1 at the concrete rank-3 tensor `[0, 1/2, 1]`. -/
theorem auto_mode_band_selection_witness :
    ∃ mn mx out,
      mn ∈ (Tensor.mk [3, 1, 1] [0, 1/2, 1]).data ∧
      mx ∈ (Tensor.mk [3, 1, 1] [0, 1/2, 1]).data ∧
      (∀ v ∈ (Tensor.mk [3, 1, 1] [0, 1/2, 1]).data, mn ≤ v ∧ v ≤ mx) ∧
      tensorToImageDataAuto (Tensor.mk [3, 1, 1] [0, 1/2, 1]) 1 1 = Except.ok out ∧
      out.length = (1 * 1) * 4 ∧
      (∀ i, i < 1 * 1 → ∀ c, c < 3 →
        out.get? (4 * i + c) = some
          (if -11/10 ≤ mn ∧ mx ≤ 11/10 then
             toByte (((Tensor.mk [3, 1, 1] [0, 1/2, 1]).data.getD (c * (1 * 1) + i) 0 + 1) / 2)
           else if -1/10 ≤ mn ∧ mx ≤ 11/10 then
             toByte ((Tensor.mk [3, 1, 1] [0, 1/2, 1]).data.getD (c * (1 * 1) + i) 0)
           else
             toByte (((Tensor.mk [3, 1, 1] [0, 1/2, 1]).data.getD (c * (1 * 1) + i) 0 - mn) /
               (mx - mn)))) :=
  auto_mode_band_selection (Tensor.mk [3, 1, 1] [0, 1/2, 1]) 1 1 (by decide) (by decide)
    (Or.inl (by decide)) (by decide)

/-- C2 fails on the code: the rank-3 tensor of shape `[3,2,2]` filled with
`0.5` has `min = max = 0.5`, which satisfies the FIRST band
(`min ≥ -1.1 ∧ max ≤ 1.1`), so auto mode applies `v ↦ (v+1)/2` — not the
identity — and every RGB byte is `round(0.75*255) = 191`, not `128`. -/
theorem auto_mode_half_tensor_bytes_191 :
    tensorToImageDataAuto (Tensor.mk [3, 2, 2] (List.replicate 12 (1/2))) 2 2 =
      Except.ok [191, 191, 191, 255, 191, 191, 191, 255,
                 191, 191, 191, 255, 191, 191, 191, 255] := by
  norm_num [tensorToImageDataAuto, scanMin, scanMax, scanMinStep, scanMaxStep,
    List.replicate, autoPixel, autoDenormFunc, storeClamped, toByte, clamp01, jsRound,
    List.range_succ, List.get?, Int.toNat_ofNat]
  decide

/-- C2 (amended): a tensor whose values all lie in `[0,1]` falls in the
first band (`min ≥ -1.1 ∧ max ≤ 1.1`, which subsumes `[0,1]`), so auto mode
maps every channel through `v ↦ (v+1)/2` — the identity branch is shadowed —
and each output RGB byte is `round(clamp((v+1)/2)*255)`. -/
theorem auto_mode_unit_range_uses_first_band (t : Tensor) (w h : ℕ)
    (hw : 1 ≤ w) (hh : 1 ≤ h)
    (hrank : t.dims.length = 3 ∨ t.dims.length = 4)
    (hlen : 3 * (w * h) ≤ t.data.length)
    (hunit : ∀ v ∈ t.data, 0 ≤ v ∧ v ≤ 1) :
    ∃ out, tensorToImageDataAuto t w h = Except.ok out ∧
      ∀ i, i < w * h → ∀ c, c < 3 →
        out.get? (4 * i + c) =
          some (toByte ((t.data.getD (c * (w * h) + i) 0 + 1) / 2)) := by
  have hW : 1 ≤ w * h := Nat.one_le_iff_ne_zero.mpr
    (Nat.mul_ne_zero (Nat.one_le_iff_ne_zero.mp hw) (Nat.one_le_iff_ne_zero.mp hh))
  have hne : t.data ≠ [] := by
    intro hnil
    rw [hnil] at hlen
    simp at hlen
    omega
  obtain ⟨mn, mx, hmn, hmx, hmnMem, hmxMem, hbound⟩ := scanMinMax_spec t.data hne
  have hband : -11/10 ≤ mn ∧ mx ≤ 11/10 := by
    constructor
    · have := (hunit mn hmnMem).1; linarith
    · have := (hunit mx hmxMem).2; linarith
  refine ⟨_, tensorToImageDataAuto_ok t w h (by omega) (by omega) hrank, ?_⟩
  intro i hi c hc
  rw [autoRender_get _ _ _ _ _ i c hi (by omega)]
  have hidx : c * (w * h) + i < t.data.length := by
    have h1 : c * (w * h) ≤ 2 * (w * h) := Nat.mul_le_mul_right _ (by omega)
    omega
  have hvmem : t.data.getD (c * (w * h) + i) 0 ∈ t.data := getD_mem 0 hidx
  have hvle := (hbound _ hvmem).1
  have hvge := (hbound _ hvmem).2
  have hread : t.data.get? (c * (w * h) + i) = some (t.data.getD (c * (w * h) + i) 0) :=
    get?_eq_getD 0 hidx
  interval_cases c
  · have h0 : (0 : ℕ) * (w * h) + i = i := by ring
    rw [h0] at hread hvle hvge ⊢
    show some (storeClamped ((t.data.get? i).bind
      (autoDenormFunc (scanMin t.data) (scanMax t.data)))) = _
    rw [hread, hmn, hmx, Option.some_bind,
      storeClamped_autoDenormFunc mn mx _ hvle hvge, if_pos hband]
  · have h0 : (1 : ℕ) * (w * h) + i = w * h + i := by ring
    rw [h0] at hread hvle hvge ⊢
    show some (storeClamped ((t.data.get? (w * h + i)).bind
      (autoDenormFunc (scanMin t.data) (scanMax t.data)))) = _
    rw [hread, hmn, hmx, Option.some_bind,
      storeClamped_autoDenormFunc mn mx _ hvle hvge, if_pos hband]
  · show some (storeClamped ((t.data.get? (2 * (w * h) + i)).bind
      (autoDenormFunc (scanMin t.data) (scanMax t.data)))) = _
    rw [hread, hmn, hmx, Option.some_bind,
      storeClamped_autoDenormFunc mn mx _ hvle hvge, if_pos hband]

/-- Witness for the amended C2 at the `[3,2,2]` all-`0.5` tensor. -/
theorem auto_mode_unit_range_uses_first_band_witness :
    ∃ out,
      tensorToImageDataAuto (Tensor.mk [3, 2, 2] (List.replicate 12 (1/2))) 2 2 =
        Except.ok out ∧
      ∀ i, i < 2 * 2 → ∀ c, c < 3 →
        out.get? (4 * i + c) =
          some (toByte
            (((Tensor.mk [3, 2, 2] (List.replicate 12 (1/2))).data.getD
              (c * (2 * 2) + i) 0 + 1) / 2)) :=
  auto_mode_unit_range_uses_first_band (Tensor.mk [3, 2, 2] (List.replicate 12 (1/2))) 2 2
    (by decide) (by decide) (Or.inl (by decide)) (by decide)
    (by
      intro v hv
      have hv' := List.eq_of_mem_replicate hv
      subst hv'
      norm_num)

/-- The selected mapping applied to the (unique) value of an all-equal
buffer: in the first band it is `(q+1)/2`; otherwise the zero range makes
the fallback division `0/0 = NaN`, stored as the byte `0` (the identity
band can never fire because it implies the first band). -/
lemma storeClamped_autoDenormFunc_const (q : ℚ) :
    storeClamped (autoDenormFunc (some q) (some q) q) =
      if -11/10 ≤ q ∧ q ≤ 11/10 then toByte ((q + 1) / 2) else 0 := by
  unfold autoDenormFunc
  by_cases h1 : -11/10 ≤ q ∧ q ≤ 11/10
  · simp [h1, storeClamped]
  · have h2 : ¬(-1/10 ≤ q ∧ q ≤ 11/10) := fun hx => h1 ⟨by linarith [hx.1], hx.2⟩
    simp [h1, h2, storeClamped, sub_self]

/-- C3 fails on the code: the all-equal tensor `[1/4, 1/4, 1/4]`
(`min == max = 0.25`) matches the first band, so the output bytes are
`round(clamp(0.625)*255) = 159`, not the uniform `0` the claim asserts for
every all-equal tensor. (There is no special case for `min == max`; the
zero-range division only arises when the common value lies outside the
first band, and then `0/0 = NaN` is stored as `0`.) -/
theorem auto_mode_constant_quarter_bytes_159 :
    tensorToImageDataAuto (Tensor.mk [3, 1, 1] [1/4, 1/4, 1/4]) 1 1 =
      Except.ok [159, 159, 159, 255] := by
  norm_num [tensorToImageDataAuto, scanMin, scanMax, scanMinStep, scanMaxStep,
    autoPixel, autoDenormFunc, storeClamped, toByte, clamp01, jsRound,
    List.range_succ, List.get?]
  decide

/-- C3 (amended): an all-equal tensor never raises a division error, but
the code has no `min == max` special case: when the common value `q` lies
in the first band every RGB byte is `round(clamp((q+1)/2)*255)` (nonzero in
general); only when `q` lies outside the band does the fallback divide by
the zero range, and the resulting `NaN` is stored as the byte `0`, giving
the uniform-0 output. -/
theorem auto_mode_constant_tensor (q : ℚ) (t : Tensor) (w h : ℕ)
    (hw : 1 ≤ w) (hh : 1 ≤ h)
    (hrank : t.dims.length = 3 ∨ t.dims.length = 4)
    (hlen : 3 * (w * h) ≤ t.data.length)
    (hconst : ∀ v ∈ t.data, v = q) :
    ∃ out, tensorToImageDataAuto t w h = Except.ok out ∧
      ∀ i, i < w * h → ∀ c, c < 3 →
        out.get? (4 * i + c) =
          some (if -11/10 ≤ q ∧ q ≤ 11/10 then toByte ((q + 1) / 2) else 0) := by
  have hW : 1 ≤ w * h := Nat.one_le_iff_ne_zero.mpr
    (Nat.mul_ne_zero (Nat.one_le_iff_ne_zero.mp hw) (Nat.one_le_iff_ne_zero.mp hh))
  have hne : t.data ≠ [] := by
    intro hnil
    rw [hnil] at hlen
    simp at hlen
    omega
  obtain ⟨mn, mx, hmn, hmx, hmnMem, hmxMem, hbound⟩ := scanMinMax_spec t.data hne
  have hmnq : mn = q := hconst mn hmnMem
  have hmxq : mx = q := hconst mx hmxMem
  refine ⟨_, tensorToImageDataAuto_ok t w h (by omega) (by omega) hrank, ?_⟩
  intro i hi c hc
  rw [autoRender_get _ _ _ _ _ i c hi (by omega)]
  have hridx : ∀ k, k < t.data.length → t.data.get? k = some q := by
    intro k hk
    rw [get?_eq_getD 0 hk, hconst _ (getD_mem 0 hk)]
  have hiq : t.data.get? i = some q := hridx i (by omega)
  have hgq : t.data.get? (w * h + i) = some q := hridx _ (by omega)
  have hbq : t.data.get? (2 * (w * h) + i) = some q := hridx _ (by omega)
  interval_cases c
  · show some (storeClamped ((t.data.get? i).bind
      (autoDenormFunc (scanMin t.data) (scanMax t.data)))) = _
    rw [hiq, hmn, hmx, hmnq, hmxq, Option.some_bind,
      storeClamped_autoDenormFunc_const q]
  · show some (storeClamped ((t.data.get? (w * h + i)).bind
      (autoDenormFunc (scanMin t.data) (scanMax t.data)))) = _
    rw [hgq, hmn, hmx, hmnq, hmxq, Option.some_bind,
      storeClamped_autoDenormFunc_const q]
  · show some (storeClamped ((t.data.get? (2 * (w * h) + i)).bind
      (autoDenormFunc (scanMin t.data) (scanMax t.data)))) = _
    rw [hbq, hmn, hmx, hmnq, hmxq, Option.some_bind,
      storeClamped_autoDenormFunc_const q]

/-- Witness for the amended C3 at the out-of-band all-`5` tensor: the
degenerate range stores `NaN` as `0` and no error is raised. -/
theorem auto_mode_constant_tensor_witness :
    ∃ out, tensorToImageDataAuto (Tensor.mk [3, 1, 1] [5, 5, 5]) 1 1 = Except.ok out ∧
      ∀ i, i < 1 * 1 → ∀ c, c < 3 →
        out.get? (4 * i + c) =
          some (if -11/10 ≤ (5:ℚ) ∧ (5:ℚ) ≤ 11/10 then toByte (((5:ℚ) + 1) / 2) else 0) :=
  auto_mode_constant_tensor 5 (Tensor.mk [3, 1, 1] [5, 5, 5]) 1 1 (by decide) (by decide)
    (Or.inl (by decide)) (by decide)
    (by
      intro v hv
      simp only [List.mem_cons, List.not_mem_nil, or_false] at hv
      rcases hv with h | h | h <;> exact h)

set_option maxRecDepth 8000 in
/-- C7 fails on the code: a rank-4 tensor whose leading (batch) dimension
is `2`, not `1`, is accepted by `tensorToImageDataAuto` — the rank-4 branch
never inspects the batch dimension — and renders normally instead of
failing with the unsupported-rank error. -/
theorem auto_mode_batch2_accepted :
    tensorToImageDataAuto (Tensor.mk [2, 3, 2, 2] (List.replicate 24 0)) 2 2 =
      Except.ok [128, 128, 128, 255, 128, 128, 128, 255,
                 128, 128, 128, 255, 128, 128, 128, 255] := by
  norm_num [tensorToImageDataAuto, scanMin, scanMax, scanMinStep, scanMaxStep,
    List.replicate, autoPixel, autoDenormFunc, storeClamped, toByte, clamp01, jsRound,
    List.range_succ, List.get?]
  decide

/-- C7 (amended): for positive target dimensions, both denormalizers fail
with the unsupported-rank error exactly when the tensor's rank is neither
3 nor 4; the rank-4 branch never reads the leading dimension, so any batch
size is accepted. -/
theorem denorm_rank_check (t : Tensor) (w h : ℕ) (cfg : ConfigType)
    (hw : 1 ≤ w) (hh : 1 ≤ h) :
    (tensorToImageDataAuto t w h = Except.error JSError.unsupportedRank ↔
      ¬(t.dims.length = 3 ∨ t.dims.length = 4)) ∧
    (tensorToImageData t w h cfg = Except.error JSError.unsupportedRank ↔
      ¬(t.dims.length = 3 ∨ t.dims.length = 4)) := by
  have hw0 : ¬(w = 0 ∨ h = 0) := by omega
  constructor
  · unfold tensorToImageDataAuto
    by_cases h4 : t.dims.length = 4
    · simp [hw0, h4]
    · by_cases h3 : t.dims.length = 3
      · simp [hw0, h3, h4]
      · simp [hw0, h3, h4]
  · unfold tensorToImageData
    by_cases h4 : t.dims.length = 4
    · simp [hw0, h4]
    · by_cases h3 : t.dims.length = 3
      · simp [hw0, h3, h4]
      · simp [hw0, h3, h4]

/-- Witness for the amended C7 at a rank-5 tensor: both denormalizers
reject it with the unsupported-rank error. -/
theorem denorm_rank_check_witness :
    (tensorToImageDataAuto (Tensor.mk [1, 2, 3, 4, 5] [0]) 1 1 =
        Except.error JSError.unsupportedRank ↔
      ¬((Tensor.mk [1, 2, 3, 4, 5] [0]).dims.length = 3 ∨
        (Tensor.mk [1, 2, 3, 4, 5] [0]).dims.length = 4)) ∧
    (tensorToImageData (Tensor.mk [1, 2, 3, 4, 5] [0]) 1 1 ConfigType.styleTransferSimple =
        Except.error JSError.unsupportedRank ↔
      ¬((Tensor.mk [1, 2, 3, 4, 5] [0]).dims.length = 3 ∨
        (Tensor.mk [1, 2, 3, 4, 5] [0]).dims.length = 4)) :=
  denorm_rank_check (Tensor.mk [1, 2, 3, 4, 5] [0]) 1 1 ConfigType.styleTransferSimple
    (by decide) (by decide)

/-- C10: a rank-4 tensor (any four-element shape) and a rank-3 tensor with
the same data buffer and targets render byte-identically under both
denormalizers: the two rank branches share one body and the batch
dimension's size is never read. -/
theorem rank3_rank4_equivalence (dims4 dims3 : List ℕ) (data : List ℚ)
    (w h : ℕ) (cfg : ConfigType)
    (h4 : dims4.length = 4) (h3 : dims3.length = 3) :
    tensorToImageData (Tensor.mk dims4 data) w h cfg =
      tensorToImageData (Tensor.mk dims3 data) w h cfg ∧
    tensorToImageDataAuto (Tensor.mk dims4 data) w h =
      tensorToImageDataAuto (Tensor.mk dims3 data) w h := by
  constructor
  · unfold tensorToImageData
    simp [h3, h4]
  · unfold tensorToImageDataAuto
    simp [h3, h4]

/-- Witness for C10: batch-7 rank-4 shape versus rank-3 shape over the
same buffer. -/
theorem rank3_rank4_equivalence_witness :
    tensorToImageData (Tensor.mk [7, 3, 1, 1] [0, 1/2, 1]) 1 1 ConfigType.styleTransferSimple =
      tensorToImageData (Tensor.mk [3, 1, 1] [0, 1/2, 1]) 1 1 ConfigType.styleTransferSimple ∧
    tensorToImageDataAuto (Tensor.mk [7, 3, 1, 1] [0, 1/2, 1]) 1 1 =
      tensorToImageDataAuto (Tensor.mk [3, 1, 1] [0, 1/2, 1]) 1 1 :=
  rank3_rank4_equivalence [7, 3, 1, 1] [3, 1, 1] [0, 1/2, 1] 1 1
    ConfigType.styleTransferSimple (by decide) (by decide)

lemma extract_length (w h : ℕ) (pixels : List ℕ) (config : Config) :
    (extractAndNormalizePixels w h pixels config).length = 3 * (w * h) := by
  unfold extractAndNormalizePixels
  simp [List.length_append, List.length_map, List.length_range]
  ring

/-- Reading planar slot `c*w*h + i` of the normalized buffer yields the
channel-`c` value of pixel `i`. -/
lemma extract_get (w h : ℕ) (pixels : List ℕ) (config : Config) (c i : ℕ)
    (hc : c < 3) (hi : i < w * h) :
    (extractAndNormalizePixels w h pixels config).get? (c * (w * h) + i) =
      some (normAt pixels config c i) := by
  unfold extractAndNormalizePixels
  have hlenR : ((List.range (w * h)).map (normAt pixels config 0)).length = w * h := by
    simp
  have hlenG : ((List.range (w * h)).map (normAt pixels config 1)).length = w * h := by
    simp
  interval_cases c
  · have h0 : (0 : ℕ) * (w * h) + i = i := by ring
    rw [h0,
      List.get?_append (by simp only [List.length_append, List.length_map, List.length_range]; omega),
      List.get?_append (by simp only [List.length_map, List.length_range]; omega),
      List.get?_map, List.get?_range hi]
    rfl
  · have h0 : (1 : ℕ) * (w * h) + i = w * h + i := by ring
    rw [h0,
      List.get?_append (by simp only [List.length_append, List.length_map, List.length_range]; omega),
      List.get?_append_right (by simp only [List.length_map, List.length_range]; omega)]
    rw [hlenR]
    have h1 : w * h + i - (w * h) = i := by omega
    rw [h1, List.get?_map, List.get?_range hi]
    rfl
  · rw [List.get?_append_right
      (by simp only [List.length_append, List.length_map, List.length_range]; omega)]
    have hAB : ((List.range (w * h)).map (normAt pixels config 0) ++
        (List.range (w * h)).map (normAt pixels config 1)).length = w * h + w * h := by
      simp only [List.length_append, List.length_map, List.length_range]
    rw [hAB]
    have h1 : 2 * (w * h) + i - (w * h + w * h) = i := by omega
    rw [h1, List.get?_map, List.get?_range hi]
    rfl

/-- C5: normalization of a `w×h` canvas pixel grid produces a buffer of
length exactly `3*w*h` in planar channel-first order — for pixel `i` with
byte offset `p = 4*i`, slot `i` holds the red value, slot `w*h + i` the
green value, slot `2*w*h + i` the blue value, each
`(pixels[p+c]/255 - mean[c])/std[c]`, the alpha byte never read — and the
wrapped tensor has shape `[1, 3, height, width]`. -/
theorem normalize_planar_layout (w h : ℕ) (pixels : List ℕ) (config : Config)
    (hlen : pixels.length = 4 * (w * h)) :
    (extractAndNormalizePixels w h pixels config).length = 3 * (w * h) ∧
    (∀ i, i < w * h →
      (extractAndNormalizePixels w h pixels config).get? i =
        some (((pixels.getD (4 * i) 0 : ℚ) / 255 - config.mean.getD 0 0) /
          config.std.getD 0 0) ∧
      (extractAndNormalizePixels w h pixels config).get? (w * h + i) =
        some (((pixels.getD (4 * i + 1) 0 : ℚ) / 255 - config.mean.getD 1 0) /
          config.std.getD 1 0) ∧
      (extractAndNormalizePixels w h pixels config).get? (2 * (w * h) + i) =
        some (((pixels.getD (4 * i + 2) 0 : ℚ) / 255 - config.mean.getD 2 0) /
          config.std.getD 2 0)) ∧
    (createONNXTensor (extractAndNormalizePixels w h pixels config) w h).dims =
      [1, 3, h, w] := by
  refine ⟨extract_length w h pixels config, ?_, rfl⟩
  intro i hi
  refine ⟨?_, ?_, ?_⟩
  · have hx := extract_get w h pixels config 0 i (by omega) hi
    rw [show (0 : ℕ) * (w * h) + i = i by ring] at hx
    rw [hx]
    rfl
  · have hx := extract_get w h pixels config 1 i (by omega) hi
    rw [show (1 : ℕ) * (w * h) + i = w * h + i by ring] at hx
    rw [hx]
    rfl
  · rw [extract_get w h pixels config 2 i (by omega) hi]
    rfl

/-- Witness for C5 at a concrete 1×1 white pixel under the simple profile. -/
theorem normalize_planar_layout_witness :
    (extractAndNormalizePixels 1 1 [255, 255, 255, 255]
      (PREPROCESSING_CONFIGS ConfigType.styleTransferSimple)).length = 3 * (1 * 1) ∧
    (∀ i, i < 1 * 1 →
      (extractAndNormalizePixels 1 1 [255, 255, 255, 255]
        (PREPROCESSING_CONFIGS ConfigType.styleTransferSimple)).get? i =
        some (((([255, 255, 255, 255] : List ℕ).getD (4 * i) 0 : ℚ) / 255 -
          (PREPROCESSING_CONFIGS ConfigType.styleTransferSimple).mean.getD 0 0) /
          (PREPROCESSING_CONFIGS ConfigType.styleTransferSimple).std.getD 0 0) ∧
      (extractAndNormalizePixels 1 1 [255, 255, 255, 255]
        (PREPROCESSING_CONFIGS ConfigType.styleTransferSimple)).get? (1 * 1 + i) =
        some (((([255, 255, 255, 255] : List ℕ).getD (4 * i + 1) 0 : ℚ) / 255 -
          (PREPROCESSING_CONFIGS ConfigType.styleTransferSimple).mean.getD 1 0) /
          (PREPROCESSING_CONFIGS ConfigType.styleTransferSimple).std.getD 1 0) ∧
      (extractAndNormalizePixels 1 1 [255, 255, 255, 255]
        (PREPROCESSING_CONFIGS ConfigType.styleTransferSimple)).get? (2 * (1 * 1) + i) =
        some (((([255, 255, 255, 255] : List ℕ).getD (4 * i + 2) 0 : ℚ) / 255 -
          (PREPROCESSING_CONFIGS ConfigType.styleTransferSimple).mean.getD 2 0) /
          (PREPROCESSING_CONFIGS ConfigType.styleTransferSimple).std.getD 2 0)) ∧
    (createONNXTensor (extractAndNormalizePixels 1 1 [255, 255, 255, 255]
      (PREPROCESSING_CONFIGS ConfigType.styleTransferSimple)) 1 1).dims = [1, 3, 1, 1] :=
  normalize_planar_layout 1 1 [255, 255, 255, 255]
    (PREPROCESSING_CONFIGS ConfigType.styleTransferSimple) (by decide)

lemma getD_of_get? {α : Type} {l : List α} {n : ℕ} {d b : α} (h : l.get? n = some b) :
    l.getD n d = b := by
  unfold List.getD
  rw [h]
  rfl

lemma clamp01_of_mem (x : ℚ) (h0 : 0 ≤ x) (h1 : x ≤ 1) : clamp01 x = x := by
  unfold clamp01
  rw [min_eq_right h1, max_eq_right h0]

lemma jsRound_natCast (p : ℕ) : jsRound (p : ℚ) = p := by
  unfold jsRound
  refine Int.floor_eq_iff.mpr ⟨?_, ?_⟩
  · push_cast
    linarith
  · push_cast
    linarith

lemma storeRounded_div255 (p : ℕ) : storeRounded (some ((p : ℚ) / 255)) = p := by
  show (jsRound ((p : ℚ) / 255 * 255)).toNat = p
  rw [div_mul_cancel₀ _ (by norm_num : (255:ℚ) ≠ 0), jsRound_natCast, Int.toNat_natCast]

lemma std_ne_zero (cfg : ConfigType) (c : ℕ) (hc : c < 3) :
    (PREPROCESSING_CONFIGS cfg).std.getD c 0 ≠ 0 := by
  cases cfg <;> interval_cases c <;> norm_num [PREPROCESSING_CONFIGS, List.getD]

/-- Denormalizing a channel that was normalized with the same profile
recovers the original `[0,1]` value in exact rational arithmetic, for every
branch of the per-config dispatch. -/
lemma explicitDenorm_inverse (cfg : ConfigType) (c : ℕ) (hc : c < 3) (x : ℚ)
    (h0 : 0 ≤ x) (h1 : x ≤ 1) :
    explicitDenorm cfg c ((x - (PREPROCESSING_CONFIGS cfg).mean.getD c 0) /
        (PREPROCESSING_CONFIGS cfg).std.getD c 0) = x := by
  have hs := std_ne_zero cfg c hc
  have key : (x - (PREPROCESSING_CONFIGS cfg).mean.getD c 0) /
      (PREPROCESSING_CONFIGS cfg).std.getD c 0 * (PREPROCESSING_CONFIGS cfg).std.getD c 0 +
      (PREPROCESSING_CONFIGS cfg).mean.getD c 0 = x := by
    rw [div_mul_cancel₀ _ hs, sub_add_cancel]
  have hcl : clamp01 x = x := clamp01_of_mem x h0 h1
  by_cases hno : cfg = ConfigType.styleTransferNoNorm
  · subst hno
    have hm : (PREPROCESSING_CONFIGS ConfigType.styleTransferNoNorm).mean.getD c 0 = 0 := by
      interval_cases c <;> rfl
    have hsd : (PREPROCESSING_CONFIGS ConfigType.styleTransferNoNorm).std.getD c 0 = 1 := by
      interval_cases c <;> rfl
    simp only [explicitDenorm, if_pos rfl]
    rw [hm, hsd, sub_zero, div_one, hcl]
    simp
  · simp only [explicitDenorm, if_neg hno, ite_self]
    rw [key, hcl]

/-- C4: explicit-mode denormalization of the normalized tensor with the
same profile reproduces each RGB byte of the grid within ±1 (in exact
rational arithmetic the reproduction is exact, so the ±1 rounding
tolerance holds a fortiori). -/
theorem normalize_denormalize_roundtrip (cfg : ConfigType) (w h : ℕ) (pixels : List ℕ)
    (hw : 1 ≤ w) (hh : 1 ≤ h)
    (hlen : pixels.length = 4 * (w * h))
    (hbyte : ∀ p ∈ pixels, p ≤ 255) :
    ∃ out,
      tensorToImageData
        (createONNXTensor (extractAndNormalizePixels w h pixels (PREPROCESSING_CONFIGS cfg)) w h)
        w h cfg = Except.ok out ∧
      out.length = (w * h) * 4 ∧
      ∀ i, i < w * h → ∀ c, c < 3 →
        ((out.getD (4 * i + c) 0 : ℤ) - (pixels.getD (4 * i + c) 0 : ℤ)).natAbs ≤ 1 := by
  have hok : tensorToImageData
      (createONNXTensor (extractAndNormalizePixels w h pixels (PREPROCESSING_CONFIGS cfg)) w h)
      w h cfg = Except.ok ((List.range (w * h)).flatMap
        (explicitPixel cfg (extractAndNormalizePixels w h pixels (PREPROCESSING_CONFIGS cfg)) w h)) :=
    tensorToImageData_ok _ w h cfg (by omega) (by omega) (Or.inr rfl)
  refine ⟨_, hok, explicitRender_length _ _ _ _, ?_⟩
  intro i hi c hc
  have hkb : 4 * i + c < pixels.length := by rw [hlen]; omega
  have hple : pixels.getD (4 * i + c) 0 ≤ 255 := hbyte _ (getD_mem 0 hkb)
  have h0x : (0:ℚ) ≤ (pixels.getD (4 * i + c) 0 : ℚ) / 255 := by positivity
  have h1x : (pixels.getD (4 * i + c) 0 : ℚ) / 255 ≤ 1 := by
    rw [div_le_one (by norm_num)]
    exact_mod_cast hple
  have hrg := explicitRender_get cfg
    (extractAndNormalizePixels w h pixels (PREPROCESSING_CONFIGS cfg)) w h i c hi (by omega)
  interval_cases c
  · have hx := extract_get w h pixels (PREPROCESSING_CONFIGS cfg) 0 i (by omega) hi
    rw [show (0 : ℕ) * (w * h) + i = i by ring] at hx
    have hbyteq : ((List.range (w * h)).flatMap
        (explicitPixel cfg (extractAndNormalizePixels w h pixels (PREPROCESSING_CONFIGS cfg)) w h)).get?
        (4 * i + 0) = some (pixels.getD (4 * i + 0) 0) := by
      rw [hrg]
      show some (storeRounded (((extractAndNormalizePixels w h pixels
        (PREPROCESSING_CONFIGS cfg)).get? i).map (explicitDenorm cfg 0))) = _
      rw [hx]
      show some (storeRounded (some (explicitDenorm cfg 0 (normAt pixels (PREPROCESSING_CONFIGS cfg) 0 i)))) = _
      rw [show normAt pixels (PREPROCESSING_CONFIGS cfg) 0 i =
        (((pixels.getD (4 * i + 0) 0 : ℚ) / 255 - (PREPROCESSING_CONFIGS cfg).mean.getD 0 0) /
          (PREPROCESSING_CONFIGS cfg).std.getD 0 0) from rfl]
      rw [explicitDenorm_inverse cfg 0 (by omega) _ h0x h1x, storeRounded_div255]
    rw [getD_of_get? hbyteq]
    simp
  · have hx := extract_get w h pixels (PREPROCESSING_CONFIGS cfg) 1 i (by omega) hi
    rw [show (1 : ℕ) * (w * h) + i = w * h + i by ring] at hx
    have hbyteq : ((List.range (w * h)).flatMap
        (explicitPixel cfg (extractAndNormalizePixels w h pixels (PREPROCESSING_CONFIGS cfg)) w h)).get?
        (4 * i + 1) = some (pixels.getD (4 * i + 1) 0) := by
      rw [hrg]
      show some (storeRounded (((extractAndNormalizePixels w h pixels
        (PREPROCESSING_CONFIGS cfg)).get? (w * h + i)).map (explicitDenorm cfg 1))) = _
      rw [hx]
      show some (storeRounded (some (explicitDenorm cfg 1 (normAt pixels (PREPROCESSING_CONFIGS cfg) 1 i)))) = _
      rw [show normAt pixels (PREPROCESSING_CONFIGS cfg) 1 i =
        (((pixels.getD (4 * i + 1) 0 : ℚ) / 255 - (PREPROCESSING_CONFIGS cfg).mean.getD 1 0) /
          (PREPROCESSING_CONFIGS cfg).std.getD 1 0) from rfl]
      rw [explicitDenorm_inverse cfg 1 (by omega) _ h0x h1x, storeRounded_div255]
    rw [getD_of_get? hbyteq]
    simp
  · have hx := extract_get w h pixels (PREPROCESSING_CONFIGS cfg) 2 i (by omega) hi
    have hbyteq : ((List.range (w * h)).flatMap
        (explicitPixel cfg (extractAndNormalizePixels w h pixels (PREPROCESSING_CONFIGS cfg)) w h)).get?
        (4 * i + 2) = some (pixels.getD (4 * i + 2) 0) := by
      rw [hrg]
      show some (storeRounded (((extractAndNormalizePixels w h pixels
        (PREPROCESSING_CONFIGS cfg)).get? (2 * (w * h) + i)).map (explicitDenorm cfg 2))) = _
      rw [hx]
      show some (storeRounded (some (explicitDenorm cfg 2 (normAt pixels (PREPROCESSING_CONFIGS cfg) 2 i)))) = _
      rw [show normAt pixels (PREPROCESSING_CONFIGS cfg) 2 i =
        (((pixels.getD (4 * i + 2) 0 : ℚ) / 255 - (PREPROCESSING_CONFIGS cfg).mean.getD 2 0) /
          (PREPROCESSING_CONFIGS cfg).std.getD 2 0) from rfl]
      rw [explicitDenorm_inverse cfg 2 (by omega) _ h0x h1x, storeRounded_div255]
    rw [getD_of_get? hbyteq]
    simp

/-- Witness for C4: a 1×1 grid with bytes `(200, 100, 50)` under the simple
profile round-trips within ±1. -/
theorem normalize_denormalize_roundtrip_witness :
    ∃ out,
      tensorToImageData
        (createONNXTensor (extractAndNormalizePixels 1 1 ([200, 100, 50, 255] : List ℕ)
          (PREPROCESSING_CONFIGS ConfigType.styleTransferSimple)) 1 1)
        1 1 ConfigType.styleTransferSimple = Except.ok out ∧
      out.length = (1 * 1) * 4 ∧
      ∀ i, i < 1 * 1 → ∀ c, c < 3 →
        ((out.getD (4 * i + c) 0 : ℤ) -
          (([200, 100, 50, 255] : List ℕ).getD (4 * i + c) 0 : ℤ)).natAbs ≤ 1 :=
  normalize_denormalize_roundtrip ConfigType.styleTransferSimple 1 1 [200, 100, 50, 255]
    (by decide) (by decide) (by decide) (by decide)

/-- C6: for positive source and target dimensions, `resizeAndCropImage`
returns a canvas of exactly the target width and height, with the
cover-fit scale `max(W/srcW, H/srcH)`, scaled size `(srcW*scale,
srcH*scale)`, centering offsets `((W-scaledW)/2, (H-scaledH)/2)`, and an
opaque white background wherever the drawn rectangle does not cover the
canvas; pixels outside the `W×H` canvas are not part of the output. -/
theorem resize_cover_fit (sample : ℕ → ℕ → Pix) (srcW srcH W H : ℕ)
    (hsw : 0 < srcW) (hsh : 0 < srcH) (hW : 0 < W) (hH : 0 < H) :
    ∃ cv, resizeAndCropImage true sample srcW srcH W H = Except.ok cv ∧
      cv.width = W ∧ cv.height = H ∧
      cv.scale = max ((W : ℚ) / (srcW : ℚ)) ((H : ℚ) / (srcH : ℚ)) ∧
      cv.scaledWidth = (srcW : ℚ) * cv.scale ∧
      cv.scaledHeight = (srcH : ℚ) * cv.scale ∧
      cv.offsetX = ((W : ℚ) - cv.scaledWidth) / 2 ∧
      cv.offsetY = ((H : ℚ) - cv.scaledHeight) / 2 ∧
      (∀ x y : ℕ, x < W → y < H →
        ¬(cv.offsetX ≤ (x : ℚ) ∧ (x : ℚ) < cv.offsetX + cv.scaledWidth ∧
          cv.offsetY ≤ (y : ℚ) ∧ (y : ℚ) < cv.offsetY + cv.scaledHeight) →
        cv.px x y = whitePix) := by
  refine ⟨_, rfl, rfl, rfl, rfl, rfl, rfl, rfl, rfl, ?_⟩
  intro x y hx hy hnot
  exact if_neg hnot

/-- Witness for C6 at the spec's 100×50 → 224×224 scenario. -/
theorem resize_cover_fit_witness :
    ∃ cv, resizeAndCropImage true graySample 100 50 224 224 = Except.ok cv ∧
      cv.width = 224 ∧ cv.height = 224 ∧
      cv.scale = max ((224 : ℚ) / (100 : ℚ)) ((224 : ℚ) / (50 : ℚ)) ∧
      cv.scaledWidth = (100 : ℚ) * cv.scale ∧
      cv.scaledHeight = (50 : ℚ) * cv.scale ∧
      cv.offsetX = ((224 : ℚ) - cv.scaledWidth) / 2 ∧
      cv.offsetY = ((224 : ℚ) - cv.scaledHeight) / 2 ∧
      (∀ x y : ℕ, x < 224 → y < 224 →
        ¬(cv.offsetX ≤ (x : ℚ) ∧ (x : ℚ) < cv.offsetX + cv.scaledWidth ∧
          cv.offsetY ≤ (y : ℚ) ∧ (y : ℚ) < cv.offsetY + cv.scaledHeight) →
        cv.px x y = whitePix) :=
  resize_cover_fit graySample 100 50 224 224 (by decide) (by decide) (by decide) (by decide)

/-- C8 fails on the code: `resizeAndCropImage` performs no target-dimension
validation — with target width `0` it still returns an output canvas (of
width `0`), and no invalid-dimensions error exists in the module. -/
theorem resize_zero_width_returns_canvas :
    (resizeAndCropImage true graySample 100 50 0 224).toOption.map DrawnCanvas.width =
      some 0 ∧
    (resizeAndCropImage true graySample 100 50 0 224).toOption.map DrawnCanvas.height =
      some 224 := by
  constructor <;> rfl

/-- C8 (amended): the resize/crop operation never validates its target
dimensions: whenever a drawing context is available it returns, for every
target pair including zero, a canvas whose width and height attributes
equal the requested targets; it never fails with an invalid-dimensions
error. -/
theorem resize_no_dimension_validation (sample : ℕ → ℕ → Pix) (srcW srcH W H : ℕ) :
    ∃ cv, resizeAndCropImage true sample srcW srcH W H = Except.ok cv ∧
      cv.width = W ∧ cv.height = H :=
  ⟨_, rfl, rfl, rfl⟩

/-- C9 fails on the code: `"toString"` is not one of the four registry
profile names, yet the bracket lookup finds the member inherited from
`Object.prototype` through the prototype chain, so the selection step does
not fail with the config error (nor does it fall back to any profile —
no profile is selected at all). -/
theorem lookup_toString_no_config_error :
    ¬("toString" = "default" ∨ "toString" = "styleTransfer" ∨
      "toString" = "styleTransferSimple" ∨ "toString" = "styleTransferNoNorm") ∧
    lookupConfig "toString" = JSProp.inherited ∧
    selectConfig "toString" = Except.ok none := by
  refine ⟨by decide, by decide, ?_⟩
  simp [selectConfig, lookupConfig, objectPrototypeKeys]

/-- C9 (amended): profile lookup by name never falls back to a default
profile, and for every name that is neither a registry key nor a property
key inherited from `Object.prototype` the lookup yields `undefined` and
the selection step fails with the config error; each known registry name
returns that profile's fixed fields; an `Object.prototype` key, however,
yields the inherited member, so the selection step does not fail with the
config error there (and still selects no profile). -/
theorem profile_lookup_contract (name : String) :
    (name ≠ "default" → name ≠ "styleTransfer" → name ≠ "styleTransferSimple" →
      name ≠ "styleTransferNoNorm" → name ∉ objectPrototypeKeys →
      lookupConfig name = JSProp.undef ∧
      selectConfig name = Except.error JSError.configError) ∧
    (name ≠ "default" → name ≠ "styleTransfer" → name ≠ "styleTransferSimple" →
      name ≠ "styleTransferNoNorm" → name ∈ objectPrototypeKeys →
      lookupConfig name = JSProp.inherited ∧
      selectConfig name = Except.ok none) ∧
    lookupConfig "default" = JSProp.config
      { width := 224, height := 224, mean := [485/1000, 456/1000, 406/1000],
        std := [229/1000, 224/1000, 225/1000], channels := 3 } ∧
    lookupConfig "styleTransfer" = JSProp.config
      { width := 224, height := 224, mean := [485/1000, 456/1000, 406/1000],
        std := [229/1000, 224/1000, 225/1000], channels := 3 } ∧
    lookupConfig "styleTransferSimple" = JSProp.config
      { width := 224, height := 224, mean := [5/10, 5/10, 5/10],
        std := [5/10, 5/10, 5/10], channels := 3 } ∧
    lookupConfig "styleTransferNoNorm" = JSProp.config
      { width := 224, height := 224, mean := [0, 0, 0],
        std := [1, 1, 1], channels := 3 } := by
  refine ⟨?_, ?_, ?_, ?_, ?_, ?_⟩
  · intro h1 h2 h3 h4 h5
    have hl : lookupConfig name = JSProp.undef := by
      unfold lookupConfig
      rw [if_neg h1, if_neg h2, if_neg h3, if_neg h4, if_neg h5]
    refine ⟨hl, ?_⟩
    unfold selectConfig
    rw [hl]
  · intro h1 h2 h3 h4 h5
    have hl : lookupConfig name = JSProp.inherited := by
      unfold lookupConfig
      rw [if_neg h1, if_neg h2, if_neg h3, if_neg h4, if_pos h5]
    refine ⟨hl, ?_⟩
    unfold selectConfig
    rw [hl]
  · simp [lookupConfig, PREPROCESSING_CONFIGS]
  · simp [lookupConfig, PREPROCESSING_CONFIGS]
  · simp [lookupConfig, PREPROCESSING_CONFIGS]
  · simp [lookupConfig, PREPROCESSING_CONFIGS]

/-- Witness for the amended C9 at the unknown profile name `piccasso` (the
style name used by the app's UI), which is neither a registry key nor an
`Object.prototype` key: lookup yields `undefined` and selection fails with
the config error. -/
theorem profile_lookup_contract_witness :
    lookupConfig "piccasso" = JSProp.undef ∧
    selectConfig "piccasso" = Except.error JSError.configError :=
  (profile_lookup_contract "piccasso").1 (by decide) (by decide) (by decide) (by decide)
    (by decide)

end ImagePreprocessing
